import Mathlib

/-!
Verification development for the NetTrackr repository.

Shallow embedding of the two subsystems the specification calls the core:

* `NetTrackr.scan_ports` (src/main.py, lines 133-155): the port-scan loop.
  For each port of the caller's list, in order, the source awaits
  `asyncio.wait_for(asyncio.open_connection(target, port), timeout)`, then
  `writer.close(); await writer.wait_closed()`, appends
  `{"port": port, "state": "open"}` when everything succeeded, and appends
  `{"port": port, "state": "closed"}` when anything inside the `try` raised
  (bare `except:`).  The outcome of one probe attempt — which depends on the
  network environment, the target string and the timeout value that the code
  passes through to `open_connection`/`wait_for` — is modelled by an oracle
  `connect : String → Int → Nat → Nat → ProbeOutcome` applied at the target,
  the timeout, the probed port and the temporal index of the probe.

* `SystemMonitor` (src/monitor.py): lifecycle (`start`, `stop`, the daemon
  thread of `_monitor_loop`) and metric collection (`_collect_metrics`,
  `get_latest_metrics`).  Outcomes of the psutil calls are modelled by a
  `HostState`; exceptions raised by the calls that the source leaves
  unguarded travel to the single outer `except` of `_collect_metrics`
  (modelled with `Except`, the handler returning the partially built dict).
-/

namespace NetTrackr

/-- Outcome of a single probe attempt, covering the two await points inside
the `try` of the scan loop (src/main.py lines 143-149): `connectFail` means
`asyncio.wait_for(asyncio.open_connection ...)` raised (timeout, refusal,
resolution failure of the target, invalid timeout value, ...); `closeFail`
means the connection succeeded but `await writer.wait_closed()` raised
(for example a reset observed while closing); `ok` means every step of the
attempt completed without an exception. -/
inductive ProbeOutcome where
  | connectFail
  | closeFail
  | ok
deriving DecidableEq

/-- One entry of the result list built by `scan_ports`: the source appends
the dict `{"port": port, "state": "open"}` or `{"port": port, "state": "closed"}`. -/
structure PortProbeResult where
  port : Nat
  state : String
deriving DecidableEq

/-- The state string appended for a probe attempt: `"open"` exactly when the
whole `try` body ran to completion, `"closed"` whenever the bare `except:`
caught anything (src/main.py lines 150-152). -/
def probeState : ProbeOutcome → String
  | ProbeOutcome.ok => "open"
  | ProbeOutcome.connectFail => "closed"
  | ProbeOutcome.closeFail => "closed"

/-- The `for port in ports` loop of `scan_ports` (src/main.py lines 142-153),
threading the temporal index of the probe: each iteration appends exactly one
result for its port, and the bare `except:` turns every failure into a
`"closed"` entry, so the loop always continues to the next port. -/
def scanPortsAux (connect : String → Int → Nat → Nat → ProbeOutcome)
    (target : String) (timeout : Int) : List Nat → Nat → List PortProbeResult
  | [], _ => []
  | p :: ps, i =>
      ⟨p, probeState (connect target timeout p i)⟩ ::
        scanPortsAux connect target timeout ps (i + 1)

/-- `NetTrackr.scan_ports` (src/main.py lines 133-155): returns the list of
per-port results, one per entry of `ports`, in the order of `ports`.  The
source performs no validation of `target` or `timeout`; both are passed
straight to the connection attempt of each probe. -/
def scan_ports (connect : String → Int → Nat → Nat → ProbeOutcome)
    (target : String) (timeout : Int) (ports : List Nat) : List PortProbeResult :=
  scanPortsAux connect target timeout ports 0

/-- Default `security.max_concurrent_scans` of `Config.DEFAULT_CONFIG`
(src/config.py line 21). -/
def max_concurrent_scans : Nat := 5

/-- Temporal event of the scan loop: probe number `i` is issued
(`open_connection` awaited) or completes (result appended). -/
inductive ProbeEvent where
  | issue (i : Nat)
  | complete (i : Nat)
deriving DecidableEq

/-- The event trace of `scan_ports` over `n` ports.  The source's loop body
awaits each connection attempt to completion (success, failure or timeout)
before the next iteration of `for port in ports` begins, so the trace is
strictly sequential: issue 0, complete 0, issue 1, complete 1, ... -/
def scanPortsTrace : Nat → List ProbeEvent
  | 0 => []
  | n + 1 => scanPortsTrace n ++ [ProbeEvent.issue n, ProbeEvent.complete n]

/-- Number of probes in flight after one more event. -/
def inFlightStep (c : Nat) : ProbeEvent → Nat
  | ProbeEvent.issue _ => c + 1
  | ProbeEvent.complete _ => c - 1

/-- Number of probes in flight after a whole trace. -/
def inFlightAfter (tr : List ProbeEvent) : Nat :=
  tr.foldl inFlightStep 0

/-- Number of probes in flight at instant `k` of a trace (after its first
`k` events). -/
def inFlightAt (tr : List ProbeEvent) (k : Nat) : Nat :=
  inFlightAfter (tr.take k)

/-- The largest number of probes simultaneously in flight at any instant of
a trace. -/
def maxInFlight (tr : List ProbeEvent) : Nat :=
  ((List.range (tr.length + 1)).map (inFlightAt tr)).foldl Nat.max 0

/-- Environment in which every connection attempt raises — what
`asyncio.open_connection` does for every probe when the target string is
empty (name resolution of `""` fails) or the timeout handed to
`asyncio.wait_for` is negative (immediate `TimeoutError`). -/
def allConnectFail : String → Int → Nat → Nat → ProbeOutcome :=
  fun _ _ _ _ => ProbeOutcome.connectFail

/-- Environment in which every connection attempt succeeds but
`await writer.wait_closed()` then raises (for example the peer resets the
connection while it is being closed). -/
def connectThenCloseFail : String → Int → Nat → Nat → ProbeOutcome :=
  fun _ _ _ _ => ProbeOutcome.closeFail

/-- Whether the connection attempt itself (`asyncio.open_connection` under
`asyncio.wait_for`) succeeded in a probe outcome. -/
def connectSucceeded : ProbeOutcome → Bool
  | ProbeOutcome.connectFail => false
  | ProbeOutcome.closeFail => true
  | ProbeOutcome.ok => true

end NetTrackr

namespace SystemMonitor

/-- Lifecycle state of one `SystemMonitor` instance (src/monitor.py):
`enabled` is `self.monitoring_enabled` (read from configuration in
`__init__`, line 15), `running` is `self.running`, and `loops` counts the
background `_monitor_loop` threads that have been spawned and have not yet
observed `running = False` and exited. -/
structure SamplerState where
  enabled : Bool
  running : Bool
  loops : Nat
deriving DecidableEq

/-- `SystemMonitor.start` (src/monitor.py lines 27-34): only when
`self.monitoring_enabled and not self.running`, set `running` and spawn one
new `_monitor_loop` thread; otherwise do nothing. -/
def start (s : SamplerState) : SamplerState :=
  if s.enabled && !s.running then
    { s with running := true, loops := s.loops + 1 }
  else s

/-- `SystemMonitor.stop` (src/monitor.py lines 36-39): unconditionally clear
`running`.  The method does not join or interrupt the thread: a spawned loop
keeps running until it next evaluates `while self.running`. -/
def stop (s : SamplerState) : SamplerState :=
  { s with running := false }

/-- Internal transition of a spawned `_monitor_loop` thread: at the top of
its `while self.running` iteration it observes the cleared flag and exits
(src/monitor.py line 43).  While `running` is true the thread keeps looping
and does not exit. -/
def loopObservesFlag (s : SamplerState) : SamplerState :=
  if !s.running && s.loops != 0 then
    { s with loops := s.loops - 1 }
  else s

/-- An interleaving step on a `SamplerState`: a caller invokes `start` or
`stop`, or one background thread reaches its loop condition and exits. -/
inductive SamplerOp where
  | callStart
  | callStop
  | threadExits
deriving DecidableEq

/-- Apply one interleaving step. -/
def applySamplerOp (s : SamplerState) : SamplerOp → SamplerState
  | SamplerOp.callStart => start s
  | SamplerOp.callStop => stop s
  | SamplerOp.threadExits => loopObservesFlag s

/-- Run a sequence of interleaving steps from a state. -/
def runSampler (s : SamplerState) (ops : List SamplerOp) : SamplerState :=
  ops.foldl applySamplerOp s

/-- The freshly constructed monitor with monitoring enabled: `__init__`
sets `self.running = False` and no thread exists (src/monitor.py line 19). -/
def initSampler : SamplerState :=
  { enabled := true, running := false, loops := 0 }

/-- The fixed backoff of `_monitor_loop`'s exception handler:
`time.sleep(5)` (src/monitor.py line 50). -/
def monitorBackoff : Nat := 5

/-- Default `features.monitoring.interval_seconds` of `Config.DEFAULT_CONFIG`
(src/config.py line 77). -/
def defaultIntervalSeconds : Nat := 60

/-- Delay one tick of `_monitor_loop` waits before the next iteration:
`time.sleep(self.interval)` after a successful tick, `time.sleep(5)` in the
`except` branch after a failed one (src/monitor.py lines 44-50). -/
def tickDelay (interval : Nat) (tickOk : Bool) : Nat :=
  if tickOk then interval else monitorBackoff

/-- `SystemMonitor._monitor_loop` (src/monitor.py lines 41-50) observed over
a finite window of `fuel` iteration opportunities, starting at tick number
`n`: each iteration first evaluates `while self.running` (the `runningFlag`
oracle at the current tick number) and exits if false; otherwise the tick
runs (collection and persistence succeed exactly when `tickOk` holds at that
tick) and the loop records the delay it sleeps, then continues — in both the
success and the failure branch. -/
def monitor_loop (interval : Nat) (runningFlag : Nat → Bool) (tickOk : Nat → Bool) :
    Nat → Nat → List Nat
  | 0, _ => []
  | fuel + 1, n =>
      if runningFlag n then
        tickDelay interval (tickOk n) ::
          monitor_loop interval runningFlag tickOk fuel (n + 1)
      else []

/-- Payload stored under one key of the `metrics["metrics"]` dict built by
`_collect_metrics` (src/monitor.py lines 52-180): the cpu record carries its
optional frequency sub-record; the disk record carries the mount points whose
`disk_usage` lookup succeeded; the network record carries the discovered
interfaces; the memory and swap records carry no claim-relevant structure. -/
inductive MetricValue where
  | cpu (hasFreq : Bool)
  | memoryInfo
  | swapInfo
  | diskInfo (mounts : List String)
  | networkInfo (interfaces : List String)
deriving DecidableEq

/-- Outcomes of the psutil calls `_collect_metrics` performs, at the
granularity the source's exception handling distinguishes: a `...Ok` flag is
false when the corresponding call raises.  `cpuOk` covers the unguarded
`cpu_percent`/`cpu_count` calls, `cpuFreqOk`/`cpuFreqSome` the guarded
`cpu_freq()` call and its truthiness test, `memOk` the unguarded
`virtual_memory()`, `swapOk` the guarded `swap_memory()`, `partitionsOk` the
unguarded `disk_partitions()` (returning `partitions` on success) with
`diskUsageOk` the guarded per-mount-point `disk_usage`, and `netOk` the
unguarded `net_if_addrs`/`net_if_stats`/`net_io_counters` triple (returning
the `interfaces`). -/
structure HostState where
  cpuOk : Bool
  cpuFreqOk : Bool
  cpuFreqSome : Bool
  memOk : Bool
  swapOk : Bool
  partitionsOk : Bool
  partitions : List String
  diskUsageOk : String → Bool
  netOk : Bool
  interfaces : List String

/-- The cpu block of `_collect_metrics` (src/monitor.py lines 61-82), run
against the accumulated `metrics["metrics"]` entries: when `"cpu"` is among
the requested metrics, the unguarded calls either raise — `Except.error`
carrying the dict as built so far, for the single outer handler — or the
`"cpu"` key is appended, with a frequency sub-record exactly when the guarded
`cpu_freq()` call succeeded and returned a truthy value. -/
def cpuBlock (req : List String) (h : HostState) (acc : List (String × MetricValue)) :
    Except (List (String × MetricValue)) (List (String × MetricValue)) :=
  if "cpu" ∈ req then
    if h.cpuOk then
      Except.ok (acc ++ [("cpu", MetricValue.cpu (h.cpuFreqOk && h.cpuFreqSome))])
    else Except.error acc
  else Except.ok acc

/-- The memory block of `_collect_metrics` (src/monitor.py lines 84-104):
when `"memory"` is requested, the unguarded `virtual_memory()` either raises
or the `"memory"` key is appended; afterwards the guarded `swap_memory()`
call appends a sibling top-level `"swap"` key when it succeeds, and is merely
logged when it fails. -/
def memBlock (req : List String) (h : HostState) (acc : List (String × MetricValue)) :
    Except (List (String × MetricValue)) (List (String × MetricValue)) :=
  if "memory" ∈ req then
    if h.memOk then
      if h.swapOk then
        Except.ok (acc ++ [("memory", MetricValue.memoryInfo), ("swap", MetricValue.swapInfo)])
      else
        Except.ok (acc ++ [("memory", MetricValue.memoryInfo)])
    else Except.error acc
  else Except.ok acc

/-- The disk block of `_collect_metrics` (src/monitor.py lines 106-121):
when `"disk"` is requested, the unguarded `disk_partitions()` either raises
or the `"disk"` key is appended, keeping exactly the mount points whose
guarded `disk_usage` lookup succeeded (a failed mount point is logged and
skipped without dropping the others). -/
def diskBlock (req : List String) (h : HostState) (acc : List (String × MetricValue)) :
    Except (List (String × MetricValue)) (List (String × MetricValue)) :=
  if "disk" ∈ req then
    if h.partitionsOk then
      Except.ok (acc ++ [("disk", MetricValue.diskInfo (h.partitions.filter h.diskUsageOk))])
    else Except.error acc
  else Except.ok acc

/-- The network block of `_collect_metrics` (src/monitor.py lines 123-175):
when `"network"` is requested, the unguarded psutil interface queries either
raise or the `"network"` key is appended with one record per interface. -/
def netBlock (req : List String) (h : HostState) (acc : List (String × MetricValue)) :
    Except (List (String × MetricValue)) (List (String × MetricValue)) :=
  if "network" ∈ req then
    if h.netOk then
      Except.ok (acc ++ [("network", MetricValue.networkInfo h.interfaces)])
    else Except.error acc
  else Except.ok acc

/-- The body of `_collect_metrics`'s single `try` (src/monitor.py lines
60-178) with its one outer `except`: the four category blocks run in the
fixed order cpu, memory, disk, network against the mutable
`metrics["metrics"]` dict; the first exception of an unguarded call jumps
straight to the outer handler, which logs and falls through to
`return metrics` — so the function returns the entries accumulated before
the failure and the remaining blocks never run. -/
def collectCategories (req : List String) (h : HostState) : List (String × MetricValue) :=
  match cpuBlock req h [] with
  | Except.error a => a
  | Except.ok a =>
    match memBlock req h a with
    | Except.error a => a
    | Except.ok a =>
      match diskBlock req h a with
      | Except.error a => a
      | Except.ok a =>
        match netBlock req h a with
        | Except.error a => a
        | Except.ok a => a

/-- The snapshot dict returned by `_collect_metrics` (src/monitor.py lines
54-58): `timestamp` and `system` are filled in before the `try`, and
`categories` is the `metrics["metrics"]` mapping, insertion-ordered. -/
structure MetricSnapshot where
  timestamp : Nat
  systemName : String
  categories : List (String × MetricValue)
deriving DecidableEq

/-- The keys of a snapshot's `metrics["metrics"]` dict. -/
def snapshotKeys (s : MetricSnapshot) : List String :=
  s.categories.map Prod.fst

/-- `SystemMonitor._collect_metrics` (src/monitor.py lines 52-180): builds
the snapshot dict, runs the guarded category blocks, and returns the dict in
every case — the only exception sources are the psutil calls, all inside the
outer `try`, so the function never raises.  `now` models
`datetime.now().isoformat()` and `sysName` models `platform.system()`. -/
def _collect_metrics (now : Nat) (sysName : String) (req : List String)
    (h : HostState) : MetricSnapshot :=
  { timestamp := now, systemName := sysName, categories := collectCategories req h }

/-- `SystemMonitor.get_latest_metrics` (src/monitor.py lines 201-203):
a direct call to `_collect_metrics`. -/
def get_latest_metrics (now : Nat) (sysName : String) (req : List String)
    (h : HostState) : MetricSnapshot :=
  _collect_metrics now sysName req h

/-- A host on which every psutil call succeeds. -/
def hostAllOk : HostState :=
  { cpuOk := true, cpuFreqOk := true, cpuFreqSome := true, memOk := true,
    swapOk := true, partitionsOk := true, partitions := ["/"],
    diskUsageOk := fun _ => true, netOk := true, interfaces := ["eth0"] }

/-- A host on which the unguarded cpu calls raise while every other psutil
call succeeds. -/
def hostCpuFail : HostState :=
  { hostAllOk with cpuOk := false }

/-- A host on which the unguarded `virtual_memory()` call raises while
every other psutil call succeeds. -/
def hostMemFail : HostState :=
  { hostAllOk with memOk := false }

/-- A host on which the unguarded `disk_partitions()` call raises while
every other psutil call succeeds. -/
def hostDiskFail : HostState :=
  { hostAllOk with partitionsOk := false }

/-- A host on which the unguarded network interface queries raise while
every other psutil call succeeds. -/
def hostNetFail : HostState :=
  { hostAllOk with netOk := false }

/-- A host on which every psutil call raises. -/
def hostAllFail : HostState :=
  { cpuOk := false, cpuFreqOk := false, cpuFreqSome := false, memOk := false,
    swapOk := false, partitionsOk := false, partitions := [],
    diskUsageOk := fun _ => false, netOk := false, interfaces := [] }

/-- The default requested metric set of `Config.DEFAULT_CONFIG`
(src/config.py line 78). -/
def defaultMetrics : List String :=
  ["cpu", "memory", "disk", "network"]

end SystemMonitor

/-! ## Theorems -/

open NetTrackr SystemMonitor

/-- Every iteration of the scan loop appends exactly one entry carrying its
own port, so mapping the port projection over the result recovers the input
list, whatever the probe outcomes are. -/
theorem scanPortsAux_map_port (connect : String → Int → Nat → Nat → ProbeOutcome)
    (target : String) (timeout : Int) (ports : List Nat) :
    ∀ i, (scanPortsAux connect target timeout ports i).map PortProbeResult.port = ports := by
  induction ports with
  | nil => intro i; rfl
  | cons p ps ih => intro i; simp [scanPortsAux, ih]

/-- The scan loop produces one entry per input port. -/
theorem scanPortsAux_length (connect : String → Int → Nat → Nat → ProbeOutcome)
    (target : String) (timeout : Int) (ports : List Nat) :
    ∀ i, (scanPortsAux connect target timeout ports i).length = ports.length := by
  induction ports with
  | nil => intro i; rfl
  | cons p ps ih => intro i; simp [scanPortsAux, ih]

/-- The entry at position `j` of the scan loop's output records the port at
position `j` of the input together with the state derived from that probe's
own outcome. -/
theorem scanPortsAux_getD (connect : String → Int → Nat → Nat → ProbeOutcome)
    (target : String) (timeout : Int) (ports : List Nat) :
    ∀ i j, j < ports.length →
      (scanPortsAux connect target timeout ports i).getD j ⟨0, "closed"⟩ =
        ⟨ports.getD j 0, probeState (connect target timeout (ports.getD j 0) (i + j))⟩ := by
  induction ports with
  | nil => intro i j hj; simp at hj
  | cons p ps ih =>
    intro i j hj
    cases j with
    | zero => simp [scanPortsAux]
    | succ j =>
      have hj' : j < ps.length := by simpa using Nat.lt_of_succ_lt_succ hj
      have := ih (i + 1) j hj'
      have harith : i + 1 + j = i + (j + 1) := by omega
      simp only [scanPortsAux, List.getD_cons_succ]
      rw [this, harith]

/-- C6 (confirmed): for every port list — including the empty list and lists
with duplicate entries — `scan_ports` returns a report with exactly one
`PortProbeResult` per requested port, in the order of the input list:
mapping the port projection over the report recovers the input list exactly,
so an empty list yields an empty report and duplicates yield duplicate
entries, each derived from its own probe's outcome. -/
theorem scan_ports_preserves_port_list
    (connect : String → Int → Nat → Nat → ProbeOutcome)
    (target : String) (timeout : Int) (ports : List Nat) :
    (scan_ports connect target timeout ports).map PortProbeResult.port = ports :=
  scanPortsAux_map_port connect target timeout ports 0

/-- C4 (counterexample): `scan_ports` called with an empty target and a
negative per-port timeout — the claim's caller contract violations — does
not fail fast with an error: in the environment where every connection
attempt consequently raises, it returns a full report marking every port
`"closed"`, so a report is produced and no abort happens. -/
theorem scan_ports_empty_target_returns_report :
    scan_ports allConnectFail "" (-1) [80, 443] =
      [⟨80, "closed"⟩, ⟨443, "closed"⟩] := by
  rfl

/-- C4 (amended): `scan_ports` applies no validation to its inputs: for
every target (the empty string included), every timeout (negative values
included) and every port list, it returns a report with exactly one entry
per requested port — probe failures surface as `"closed"` entries and the
scan never aborts with an error on any input class. -/
theorem scan_ports_never_aborts
    (connect : String → Int → Nat → Nat → ProbeOutcome)
    (target : String) (timeout : Int) (ports : List Nat) :
    (scan_ports connect target timeout ports).length = ports.length :=
  scanPortsAux_length connect target timeout ports 0

/-- C7 (counterexample): a probe whose connection attempt succeeds but whose
`writer.wait_closed()` then raises is reported `"closed"`, not `"open"`: the
bare `except:` also covers the close step after a successful connect, so a
connect success does not by itself yield state `"open"`. -/
theorem scan_ports_close_failure_marks_closed :
    connectSucceeded (connectThenCloseFail "host" 1 80 0) = true ∧
      scan_ports connectThenCloseFail "host" 1 [80] = [⟨80, "closed"⟩] := by
  constructor
  · rfl
  · rfl

/-- C7 (amended): the entry for each requested port reflects that probe's
own outcome — `"open"` exactly when the whole attempt (connection and
subsequent close) completed without an exception, `"closed"` on any failure
anywhere in the attempt, timeouts and refusals included — and every other
port is still probed and reported: the report always has one entry per
requested port, whatever each probe's outcome. -/
theorem scan_ports_entry_state_per_probe
    (connect : String → Int → Nat → Nat → ProbeOutcome)
    (target : String) (timeout : Int) (ports : List Nat) (j : Nat)
    (hj : j < ports.length) :
    (scan_ports connect target timeout ports).getD j ⟨0, "closed"⟩ =
        ⟨ports.getD j 0, probeState (connect target timeout (ports.getD j 0) j)⟩ ∧
      (probeState (connect target timeout (ports.getD j 0) j) = "open" ↔
        connect target timeout (ports.getD j 0) j = ProbeOutcome.ok) ∧
      (scan_ports connect target timeout ports).length = ports.length := by
  refine ⟨?_, ?_, scanPortsAux_length connect target timeout ports 0⟩
  · have := scanPortsAux_getD connect target timeout ports 0 j hj
    simpa [scan_ports] using this
  · cases hc : connect target timeout (ports.getD j 0) j <;> simp [probeState]

/-- C7 (witness): the amended statement evaluated in the environment where
every connect succeeds and every close then fails, on the single-port list
`[80]`. -/
theorem scan_ports_entry_state_per_probe_witness :
    (scan_ports connectThenCloseFail "host" 1 [80]).getD 0 ⟨0, "closed"⟩ =
        ⟨[80].getD 0 0, probeState (connectThenCloseFail "host" 1 ([80].getD 0 0) 0)⟩ ∧
      (probeState (connectThenCloseFail "host" 1 ([80].getD 0 0) 0) = "open" ↔
        connectThenCloseFail "host" 1 ([80].getD 0 0) 0 = ProbeOutcome.ok) ∧
      (scan_ports connectThenCloseFail "host" 1 [80]).length = [80].length :=
  scan_ports_entry_state_per_probe connectThenCloseFail "host" 1 [80] 0 (by decide)

/-- The scan trace over `n` ports has `2 * n` events. -/
theorem scanPortsTrace_length (n : Nat) : (scanPortsTrace n).length = 2 * n := by
  induction n with
  | zero => rfl
  | succ n ih => simp [scanPortsTrace, ih]; omega

/-- Folding the in-flight count over an appended trace continues from the
count reached after the first part. -/
theorem inFlightAfter_append (a b : List ProbeEvent) :
    inFlightAfter (a ++ b) = b.foldl inFlightStep (inFlightAfter a) := by
  simp [inFlightAfter, List.foldl_append]

/-- After the complete scan trace every issued probe has completed: the
in-flight count is back to zero. -/
theorem inFlightAfter_scanPortsTrace (n : Nat) :
    inFlightAfter (scanPortsTrace n) = 0 := by
  induction n with
  | zero => rfl
  | succ n ih =>
    rw [scanPortsTrace, inFlightAfter_append, ih]
    rfl

/-- At every instant of the scan trace at most one probe is in flight: the
loop awaits each probe to completion before issuing the next. -/
theorem inFlightAt_scanPortsTrace_le_one (n : Nat) :
    ∀ k, inFlightAt (scanPortsTrace n) k ≤ 1 := by
  induction n with
  | zero => intro k; simp [scanPortsTrace, inFlightAt, inFlightAfter]
  | succ n ih =>
    intro k
    rw [scanPortsTrace, inFlightAt, List.take_append_eq_append_take,
      inFlightAfter_append, scanPortsTrace_length]
    by_cases hk : k ≤ 2 * n
    · rw [Nat.sub_eq_zero_of_le hk]
      simpa [inFlightAt] using ih k
    · have hlen : (scanPortsTrace n).length ≤ k := by
        rw [scanPortsTrace_length]; omega
      rw [List.take_of_length_le hlen, inFlightAfter_scanPortsTrace]
      rcases hsub : k - 2 * n with _ | m
      · omega
      · cases m with
        | zero => simp [inFlightStep]
        | succ m => simp [inFlightStep]

/-- Folding `Nat.max` over a list of values all bounded by `m`, from an
accumulator bounded by `m`, stays bounded by `m`. -/
theorem foldl_nat_max_le {m : Nat} :
    ∀ (l : List Nat) (acc : Nat), acc ≤ m → (∀ x ∈ l, x ≤ m) →
      l.foldl Nat.max acc ≤ m := by
  intro l
  induction l with
  | nil => intro acc h _; simpa using h
  | cons x xs ih =>
    intro acc h hx
    simp only [List.foldl_cons]
    refine ih _ (Nat.max_le.mpr ⟨h, hx x (by simp)⟩) ?_
    intro y hy
    exact hx y (by simp [hy])

/-- The peak number of simultaneously in-flight probes over the whole scan
trace is at most one. -/
theorem maxInFlight_scanPortsTrace_le_one (n : Nat) :
    maxInFlight (scanPortsTrace n) ≤ 1 := by
  refine foldl_nat_max_le _ 0 (by omega) ?_
  intro x hx
  rcases List.mem_map.mp hx with ⟨k, _, rfl⟩
  exact inFlightAt_scanPortsTrace_le_one n k

/-- C1 (counterexample): with `max_concurrent_scans = 2` and 5 requested
ports, the scan's probes are not issued concurrently in windows of the cap:
the loop awaits each probe before issuing the next, so the peak number of
probes simultaneously in flight over the whole 5-port scan is 1 — at no
instant are even 2 probes in flight, refuting the claimed windowed
concurrency. -/
theorem scan_ports_no_two_probes_in_flight :
    maxInFlight (scanPortsTrace 5) = 1 ∧ ¬ 2 ≤ maxInFlight (scanPortsTrace 5) := by
  decide

/-- C1 (amended): `scan_ports` issues its probes strictly sequentially —
each probe's connection attempt completes (or times out) before the next is
issued — so at most one probe is ever in flight, which trivially never
exceeds any concurrency cap of at least one, the configured
`security.max_concurrent_scans` included; no batching or windowing into
larger concurrent groups occurs, and the configuration value is never
consulted by the scan. -/
theorem scan_ports_sequential_in_flight_bound (n cap : Nat) (hcap : 1 ≤ cap) :
    maxInFlight (scanPortsTrace n) ≤ 1 ∧ maxInFlight (scanPortsTrace n) ≤ cap :=
  ⟨maxInFlight_scanPortsTrace_le_one n,
    Nat.le_trans (maxInFlight_scanPortsTrace_le_one n) hcap⟩

/-- C1 (witness): the amended bound evaluated for a 5-port scan against the
default configured cap of 5. -/
theorem scan_ports_sequential_in_flight_bound_witness :
    maxInFlight (scanPortsTrace 5) ≤ 1 ∧
      maxInFlight (scanPortsTrace 5) ≤ max_concurrent_scans :=
  scan_ports_sequential_in_flight_bound 5 max_concurrent_scans (by decide)

/-- C8 (counterexample): from a freshly constructed enabled monitor, the
call sequence `start; stop; start` leaves two background loop threads
active: `stop` only clears the flag without waiting for the spawned thread
to observe it, and the second `start` sees `running = False` and spawns a
new thread while the first is still looping (it never observed a cleared
flag), so "at most one background loop instance is ever active per state"
fails. -/
theorem sampler_restart_creates_second_loop :
    (runSampler initSampler
        [SamplerOp.callStart, SamplerOp.callStop, SamplerOp.callStart]).loops = 2 := by
  decide

/-- C8 (amended): `start` while running is a no-op and `stop` is idempotent
on the state; two successive `start` calls from a state with no live loop
thread leave at most one active loop.  However, because `stop` does not wait
for the spawned thread to exit, a `start` issued after `stop` but before the
old thread observes the cleared flag spawns a second concurrent loop, so "at
most one active loop ever" holds only when each restart happens after the
previous loop thread has exited. -/
theorem sampler_start_stop_idempotent (s : SamplerState) :
    SystemMonitor.start (SystemMonitor.start s) = SystemMonitor.start s ∧
      SystemMonitor.stop (SystemMonitor.stop s) = SystemMonitor.stop s ∧
      (s.loops = 0 → (SystemMonitor.start (SystemMonitor.start s)).loops ≤ 1) := by
  obtain ⟨e, r, l⟩ := s
  refine ⟨?_, rfl, ?_⟩
  · cases e <;> cases r <;> simp [SystemMonitor.start]
  · intro hl
    cases e <;> cases r <;> simp_all [SystemMonitor.start]

/-- C8 (witness): the amended statement evaluated on the freshly
constructed enabled monitor state. -/
theorem sampler_start_stop_idempotent_witness :
    SystemMonitor.start (SystemMonitor.start initSampler) =
        SystemMonitor.start initSampler ∧
      SystemMonitor.stop (SystemMonitor.stop initSampler) =
        SystemMonitor.stop initSampler ∧
      (SystemMonitor.start (SystemMonitor.start initSampler)).loops ≤ 1 := by
  have h := sampler_start_stop_idempotent initSampler
  exact ⟨h.1, h.2.1, h.2.2 rfl⟩

/-- C10 (confirmed): when the monitoring `enabled` configuration flag is
false, `start` is a complete no-op from every state, the stopped state
included — it returns the state unchanged, so no background loop is created
and the `running` flag stays false. -/
theorem start_noop_when_monitoring_disabled (s : SamplerState)
    (hNotEnabled : s.enabled = false) :
    SystemMonitor.start s = s := by
  simp [SystemMonitor.start, hNotEnabled]

/-- C10 (witness): `start` on the stopped, disabled state leaves it
unchanged. -/
theorem start_noop_when_monitoring_disabled_witness :
    SystemMonitor.start ⟨false, false, 0⟩ = (⟨false, false, 0⟩ : SamplerState) :=
  start_noop_when_monitoring_disabled ⟨false, false, 0⟩ rfl

/-- C9 (counterexample): with a configured normal interval of 3 seconds, a
failed tick makes the loop wait the fixed 5-second backoff, which is not
strictly shorter than that configured interval: over a one-iteration window
with a failing tick the loop sleeps exactly `monitorBackoff = 5` seconds,
and `5 < 3` is false. -/
theorem monitor_backoff_not_shorter_than_small_interval :
    monitor_loop 3 (fun _ => true) (fun _ => false) 1 0 = [monitorBackoff] ∧
      ¬ monitorBackoff < 3 := by
  decide

/-- Over any window in which the running flag stays true, the loop performs
one iteration per opportunity: no tick failure ends the loop. -/
theorem monitor_loop_length (interval : Nat) (runningFlag tickOk : Nat → Bool)
    (hrun : ∀ m, runningFlag m = true) :
    ∀ fuel n, (monitor_loop interval runningFlag tickOk fuel n).length = fuel := by
  intro fuel
  induction fuel with
  | zero => intro n; rfl
  | succ fuel ih => intro n; simp [monitor_loop, hrun n, ih (n + 1)]

/-- C9 (amended): a tick whose collection or persistence raises is logged
and followed by the fixed backoff `monitorBackoff = 5` seconds, after which
the loop keeps iterating — while the running flag is true no single tick's
failure terminates the loop (every iteration opportunity of the window is
used, whatever the tick outcomes) — and that backoff is strictly shorter
than the default configured interval of 60 seconds, though not shorter than
every configurable interval. -/
theorem monitor_loop_survives_failures_with_fixed_backoff
    (interval : Nat) (runningFlag tickOk : Nat → Bool) (fuel n : Nat)
    (hrun : ∀ m, runningFlag m = true) :
    (monitor_loop interval runningFlag tickOk fuel n).length = fuel ∧
      tickDelay interval false = monitorBackoff ∧
      monitorBackoff < defaultIntervalSeconds := by
  refine ⟨monitor_loop_length interval runningFlag tickOk hrun fuel n, rfl, by decide⟩

/-- C9 (witness): the amended statement over a three-iteration window with
every tick failing, at the default 60-second interval. -/
theorem monitor_loop_survives_failures_witness :
    (monitor_loop 60 (fun _ => true) (fun _ => false) 3 0).length = 3 ∧
      tickDelay 60 false = monitorBackoff ∧
      monitorBackoff < defaultIntervalSeconds :=
  monitor_loop_survives_failures_with_fixed_backoff 60 (fun _ => true)
    (fun _ => false) 3 0 (fun _ => rfl)

/-- Every key of the dict built by the category blocks is either a requested
metric name or the `"swap"` key, the latter only when `"memory"` was
requested. -/
theorem collectCategories_keys (req : List String) (h : HostState) (k : String) :
    k ∈ (collectCategories req h).map Prod.fst →
      k ∈ req ∨ (k = "swap" ∧ "memory" ∈ req) := by
  unfold collectCategories cpuBlock memBlock diskBlock netBlock
  split_ifs <;> intro hk <;> simp_all <;> aesop

/-- C2 (counterexample): requesting only the `"memory"` category on a host
where every psutil call succeeds produces a snapshot whose categories also
carry the top-level `"swap"` key — the source stores swap as a sibling of
`"memory"`, not as a sub-record — so the key set is not a subset of the
requested set. -/
theorem collect_metrics_swap_key_outside_request :
    "swap" ∈ snapshotKeys (_collect_metrics 0 "Linux" ["memory"] hostAllOk) ∧
      "swap" ∉ ["memory"] := by
  decide

/-- C2 (amended): for every requested category set and every host state, the
keys of the snapshot returned by `_collect_metrics` (and hence by
`get_latest_metrics`) are contained in the requested set extended by the one
extra key `"swap"`, which appears only when `"memory"` was requested (and
the host's swap query succeeded); no other key outside the requested
categories ever appears. -/
theorem collect_metrics_keys_subset_request_or_swap
    (now : Nat) (sysName : String) (req : List String) (h : HostState)
    (k : String) (hk : k ∈ snapshotKeys (_collect_metrics now sysName req h)) :
    k ∈ req ∨ (k = "swap" ∧ "memory" ∈ req) :=
  collectCategories_keys req h k
    (by simpa [snapshotKeys, _collect_metrics] using hk)

/-- C2 (witness): the amended statement evaluated at the request
`["memory"]` on the all-successful host, for the key `"swap"` found in the
snapshot. -/
theorem collect_metrics_keys_subset_witness :
    "swap" ∈ ["memory"] ∨ ("swap" = "swap" ∧ "memory" ∈ ["memory"]) :=
  collect_metrics_keys_subset_request_or_swap 0 "Linux" ["memory"] hostAllOk
    "swap" (by decide)

/-- C3 (counterexample): with all four categories requested on a host whose
unguarded cpu calls raise while memory, disk and network calls would all
succeed, the snapshot's category mapping is empty: the single outer
`except` of `_collect_metrics` catches the cpu failure after which the
memory, disk and network blocks never run, so the failing category does not
fail alone — every other requested (and collectible) category is dropped
with it. -/
theorem collect_metrics_cpu_failure_drops_later_categories :
    hostCpuFail.memOk = true ∧ "memory" ∈ defaultMetrics ∧
      snapshotKeys (_collect_metrics 0 "Linux" defaultMetrics hostCpuFail) = [] := by
  decide

/-- C3 (amended): when collection of a requested category fails, that
category is omitted with a diagnostic logged and no exception raised, and
the categories processed before it in the fixed order cpu, memory, disk,
network are still collected and present — but the categories after it are
dropped as well.  One conjunct per failing category, each assuming that the
failing category is requested and that every category processed before it
would succeed (so its block is the first to raise): a cpu failure leaves the
category mapping empty; a memory failure keeps cpu (when requested) and
drops memory, swap, disk and network; a disk failure keeps cpu and memory
(when requested) and drops disk and network; a network failure — the
last-processed category, the only one isolated exactly as the claim states —
keeps every other requested category and drops network alone. -/
theorem collect_metrics_category_failure_prefix_kept
    (now : Nat) (sysName : String) (req : List String) (h : HostState) :
    ("cpu" ∈ req → h.cpuOk = false →
        snapshotKeys (_collect_metrics now sysName req h) = []) ∧
      ("memory" ∈ req → ("cpu" ∈ req → h.cpuOk = true) → h.memOk = false →
        ("cpu" ∈ req → "cpu" ∈ snapshotKeys (_collect_metrics now sysName req h)) ∧
          "memory" ∉ snapshotKeys (_collect_metrics now sysName req h) ∧
          "swap" ∉ snapshotKeys (_collect_metrics now sysName req h) ∧
          "disk" ∉ snapshotKeys (_collect_metrics now sysName req h) ∧
          "network" ∉ snapshotKeys (_collect_metrics now sysName req h)) ∧
      ("disk" ∈ req → ("cpu" ∈ req → h.cpuOk = true) →
          ("memory" ∈ req → h.memOk = true) → h.partitionsOk = false →
        ("cpu" ∈ req → "cpu" ∈ snapshotKeys (_collect_metrics now sysName req h)) ∧
          ("memory" ∈ req →
            "memory" ∈ snapshotKeys (_collect_metrics now sysName req h)) ∧
          "disk" ∉ snapshotKeys (_collect_metrics now sysName req h) ∧
          "network" ∉ snapshotKeys (_collect_metrics now sysName req h)) ∧
      ("network" ∈ req → ("cpu" ∈ req → h.cpuOk = true) →
          ("memory" ∈ req → h.memOk = true) →
          ("disk" ∈ req → h.partitionsOk = true) → h.netOk = false →
        ("cpu" ∈ req → "cpu" ∈ snapshotKeys (_collect_metrics now sysName req h)) ∧
          ("memory" ∈ req →
            "memory" ∈ snapshotKeys (_collect_metrics now sysName req h)) ∧
          ("disk" ∈ req → "disk" ∈ snapshotKeys (_collect_metrics now sysName req h)) ∧
          "network" ∉ snapshotKeys (_collect_metrics now sysName req h)) := by
  unfold _collect_metrics snapshotKeys collectCategories cpuBlock memBlock diskBlock netBlock
  split_ifs <;> simp_all

/-- C3 (witness): every conjunct of the amended statement exercised with the
default metric request, one host per failing category: the cpu-failure host
yields an empty mapping; the memory-failure host keeps cpu and lacks memory;
the disk-failure host keeps memory and lacks disk; the network-failure host
keeps disk and lacks only network. -/
theorem collect_metrics_category_failure_prefix_kept_witness :
    snapshotKeys (_collect_metrics 0 "Linux" defaultMetrics hostCpuFail) = [] ∧
      "cpu" ∈ snapshotKeys (_collect_metrics 0 "Linux" defaultMetrics hostMemFail) ∧
      "memory" ∉ snapshotKeys (_collect_metrics 0 "Linux" defaultMetrics hostMemFail) ∧
      "memory" ∈ snapshotKeys (_collect_metrics 0 "Linux" defaultMetrics hostDiskFail) ∧
      "disk" ∉ snapshotKeys (_collect_metrics 0 "Linux" defaultMetrics hostDiskFail) ∧
      "disk" ∈ snapshotKeys (_collect_metrics 0 "Linux" defaultMetrics hostNetFail) ∧
      "network" ∉ snapshotKeys (_collect_metrics 0 "Linux" defaultMetrics hostNetFail) := by
  have h1 := collect_metrics_category_failure_prefix_kept 0 "Linux" defaultMetrics hostCpuFail
  have h2 := collect_metrics_category_failure_prefix_kept 0 "Linux" defaultMetrics hostMemFail
  have h3 := collect_metrics_category_failure_prefix_kept 0 "Linux" defaultMetrics hostDiskFail
  have h4 := collect_metrics_category_failure_prefix_kept 0 "Linux" defaultMetrics hostNetFail
  have hm := h2.2.1 (by decide) (fun _ => rfl) rfl
  have hd := h3.2.2.1 (by decide) (fun _ => rfl) (fun _ => rfl) rfl
  have hn := h4.2.2.2 (by decide) (fun _ => rfl) (fun _ => rfl) (fun _ => rfl) rfl
  exact ⟨h1.1 (by decide) rfl, hm.1 (by decide), hm.2.1, hd.2.1 (by decide),
    hd.2.2.1, hn.2.2.1 (by decide), hn.2.2.2⟩

/-- C5 (confirmed): `_collect_metrics` — and through it `get_latest_metrics`
— is total over every requested category set and every host state: the only
exception sources are the psutil calls, all of which sit inside the single
outer `try`, so a snapshot object carrying the timestamp and system name is
returned in every case, and when every category's collection fails the
snapshot carries an empty category mapping. -/
theorem collect_metrics_total_and_empty_on_total_failure
    (now : Nat) (sysName : String) (req : List String) (h : HostState) :
    (_collect_metrics now sysName req h).timestamp = now ∧
      (_collect_metrics now sysName req h).systemName = sysName ∧
      (h.cpuOk = false → h.memOk = false → h.partitionsOk = false →
        h.netOk = false → (_collect_metrics now sysName req h).categories = []) := by
  refine ⟨rfl, rfl, ?_⟩
  intro hcpu hmem hdisk hnet
  unfold _collect_metrics collectCategories cpuBlock memBlock diskBlock netBlock
  split_ifs <;> simp_all

/-- C5 (witness): the statement evaluated with the default metric request on
the host where every psutil call raises. -/
theorem collect_metrics_total_witness :
    (_collect_metrics 7 "Linux" defaultMetrics hostAllFail).timestamp = 7 ∧
      (_collect_metrics 7 "Linux" defaultMetrics hostAllFail).systemName = "Linux" ∧
      (_collect_metrics 7 "Linux" defaultMetrics hostAllFail).categories = [] := by
  have h := collect_metrics_total_and_empty_on_total_failure 7 "Linux"
    defaultMetrics hostAllFail
  exact ⟨h.1, h.2.1, h.2.2 rfl rfl rfl rfl⟩
